import Mathlib

/-!
Shallow embedding of the NOAA station-catalog utilities
(`NOAAWeatherUtilities.py`, class `GHCNUtilities`, and
`NOAASolarUtilities.py`, class `NSRBUtilities`).

Modelling conventions:
* A pandas DataFrame of observation or station rows is a `List` of records.
* Numeric (float) columns are modelled as rationals `ℚ`; the claims under
  study only involve exact division by 10, which floats perform the same
  way up to representation of the printed literal.
* `pd.to_datetime` on a date string is modelled by carrying the parsed
  date as a `Date` record (year/month/day) directly in the CSV row.
* The filesystem is a record of functions: `byYear` maps a year to the
  parsed content of `by_year/<year>.csv.gz` when that file exists,
  `archives` maps a station id to the tar archive `<stationId>.tar.gz`
  when it exists, and an archive maps member names to parsed CSV content.
* Python calls that can raise `ValueError` return `Except String α`;
  `Except.error` is the raising outcome.
* The solar `find_stations` parameter `solar` defaults to `''` and is
  consulted only through `isinstance(solar, bool)`; it is modelled as
  `Option Bool`: `some b` is a boolean argument, `none` is any non-boolean
  argument (including the default empty string).
-/

/-- A parsed calendar date (result of `pd.to_datetime` on a date string). -/
structure Date where
  year : Int
  month : Nat
  day : Nat
deriving DecidableEq, Repr

/-! ## Weather catalog (`GHCNUtilities`) -/

/-- One CSV row of `by_year/<year>.csv.gz` after the 7-column selection
(`usecols=colnames[0:7]`) and date parsing done by `read_weather_byyear`:
station id, date, element tag, raw value, and the three flag columns. -/
structure WeatherCsvRow where
  WeatherStnId : String
  Date : Date
  Element : String
  Value : ℚ
  MFlag : String
  QFlag : String
  SFlag : String
deriving DecidableEq, Repr

/-- An output row of `read_weather_byyear`: the CSV columns plus the
derived `Year`, `Month`, `Day` columns. -/
structure WeatherObsRow where
  WeatherStnId : String
  Date : Date
  Element : String
  Value : ℚ
  MFlag : String
  QFlag : String
  SFlag : String
  Year : Int
  Month : Nat
  Day : Nat
deriving DecidableEq, Repr

/-- The fixed list `lstTenths` of element tags whose values are recorded in
tenths of their natural unit, copied from `read_weather_byyear`. -/
def lstTenths : List String :=
  ["PRCP", "TMAX", "TMIN", "AWND", "EVAP", "MDEV", "MDPR", "MDTN", "MDTX",
   "MNPN", "MXPN", "SN*#", "SX*#", "TAVG", "THIC", "TOBS", "WESD", "WESF",
   "WSF1", "WSF2", "WSF5", "WSFG", "WSFI", "WSFM"]

/-- `df.loc[df['Element'].isin(lstTenths), ['Value']] /= 10.0`: divide the
`Value` of every row whose `Element` is in `lstTenths` by 10. -/
def applyTenthsScaling (rows : List WeatherCsvRow) : List WeatherCsvRow :=
  rows.map fun r =>
    if r.Element ∈ lstTenths then { r with Value := r.Value / 10 } else r

/-- Adding the derived columns: `df['Year'] = year;
df['Month'] = DatetimeIndex(df['Date']).month;
df['Day'] = DatetimeIndex(df['Date']).day`.  Note the `Year` column is the
`year` argument, while `Month`/`Day` come from the parsed date. -/
def addDateColumns (year : Int) (rows : List WeatherCsvRow) : List WeatherObsRow :=
  rows.map fun r =>
    { WeatherStnId := r.WeatherStnId, Date := r.Date, Element := r.Element,
      Value := r.Value, MFlag := r.MFlag, QFlag := r.QFlag, SFlag := r.SFlag,
      Year := year, Month := r.Date.month, Day := r.Date.day }

/-- The weather directory contents relevant to `read_weather_byyear`:
`byYear y` is the parsed CSV content of `by_year/<y>.csv.gz` when that file
exists, `none` when it does not. -/
structure WeatherFS where
  byYear : Int → Option (List WeatherCsvRow)

/-- `GHCNUtilities.read_weather_byyear`: if `by_year/<year>.csv.gz` is not a
file, return an empty dataframe; otherwise read it, scale the tenths
elements, and add the derived date columns. -/
def read_weather_byyear (fs : WeatherFS) (year : Int) : List WeatherObsRow :=
  match fs.byYear year with
  | none => []
  | some rows => addDateColumns year (applyTenthsScaling rows)

/-! ## String helpers shared by both catalogs

`re.match('[a-z|A-Z]{2}', state)`, `Series.str.match(state, case=False)` and
`Series.str.contains(station, case=False, regex=False)` modelled over ASCII
strings. -/

/-- Membership in the regex character class `[a-z|A-Z]`.  Note the class
literally contains the bar character, so `'|'` is accepted alongside the
ASCII letters. -/
def regexClassChar (c : Char) : Bool :=
  ('a' ≤ c && c ≤ 'z') || c = '|' || ('A' ≤ c && c ≤ 'Z')

/-- `re.match('[a-z|A-Z]{2}', s) is not None`: the first two characters of
`s` exist and lie in the class `[a-z|A-Z]` (a prefix match, unanchored at
the end). -/
def reMatchTwoClass (s : String) : Bool :=
  match s.data with
  | c1 :: c2 :: _ => regexClassChar c1 && regexClassChar c2
  | _ => false

/-- The shared `state` argument check of both `find_stations` functions:
`len(state) > 0 and (len(state) != 2 or not re.match('[a-z|A-Z]{2}', state))`
(the `isinstance(state, str)` conjunct is vacuous in this typed model).
When `true`, the call raises `ValueError("state must be a string two letters")`. -/
def stateArgBad (state : String) : Bool :=
  state.length > 0 && (state.length ≠ 2 || !reMatchTwoClass state)

/-- `p` occurs as a contiguous sublist of `s`. -/
def listIsSubstr (p : List Char) : List Char → Bool
  | [] => p.isEmpty
  | c :: t => p.isPrefixOf (c :: t) || listIsSubstr p t

/-- `Series.str.contains(pat, case=False, regex=False)` applied to the cell
`s`: case-insensitive literal substring containment. -/
def strContainsCI (s pat : String) : Bool :=
  listIsSubstr (pat.data.map Char.toLower) (s.data.map Char.toLower)

/-- Split a character list on the bar character, the list-level analogue of
`'…'.split('|')` (regex alternation boundaries). -/
def splitOnBar : List Char → List (List Char)
  | [] => [[]]
  | c :: t =>
    if c = '|' then [] :: splitOnBar t
    else
      match splitOnBar t with
      | [] => [[c]]
      | h :: r => (c :: h) :: r

/-- `Series.str.match(pat, case=False)` applied to the cell `s`: the regex
`pat` matched at the beginning of `s`, ignoring case.  Modelled for patterns
whose only regex metacharacter is `'|'` (all that `stateArgBad` lets
through): some alternative of the pattern is a case-insensitive prefix of
`s`. -/
def strMatchCI (s pat : String) : Bool :=
  (splitOnBar pat.data).any fun alt =>
    (alt.map Char.toLower).isPrefixOf (s.data.map Char.toLower)

/-! ## Weather station table (`GHCNUtilities`) -/

/-- One row of the `ghcnd-stations.txt` fixed-width table as loaded by
`_read_stations` (float columns as `Option ℚ`, `NaN` being `none`; the
`WMOId` column is coerced with `errors='coerce'`, failures becoming `none`). -/
structure WeatherStation where
  WeatherStnId : String
  Latitude : Option ℚ
  Longitude : Option ℚ
  Elevation_m : Option ℚ
  State : String
  StationName : String
  GSNFlag : Bool
  HCNCat : String
  WMOId : Option ℚ
deriving DecidableEq, Repr

/-- `GHCNUtilities.find_stations(station, state)`: validates `state`, then
filters `dfStations` by a case-insensitive substring match on
`StationName` and a case-insensitive regex prefix match on `State`,
combining the supplied filters with `&`;  with no filters it returns the
whole table (`df.copy()` is the identity on a value-level list). -/
def find_stations_weather (dfStations : List WeatherStation)
    (station state : String) : Except String (List WeatherStation) :=
  if stateArgBad state then
    Except.error "state must be a string two letters"
  else if state.length > 0 && station.length > 0 then
    Except.ok (dfStations.filter fun s =>
      strContainsCI s.StationName station && strMatchCI s.State state)
  else if station.length > 0 then
    Except.ok (dfStations.filter fun s => strContainsCI s.StationName station)
  else if state.length > 0 then
    Except.ok (dfStations.filter fun s => strMatchCI s.State state)
  else
    Except.ok dfStations

/-- `GHCNUtilities.get_station_info(stationid)`: `.loc` lookup on the
station-id index wrapped in a bare `try/except` returning an empty Series,
so the call never raises; `none` models the empty Series. -/
def get_station_info_weather (dfStations : List WeatherStation)
    (stationid : String) : Option WeatherStation :=
  dfStations.find? fun s => s.WeatherStnId = stationid

/-! ## Solar station table (`NSRBUtilities`) -/

/-- One row of `NSRDB_StationsMeta.csv` as loaded by
`NSRBUtilities._read_stations`. -/
structure SolarStation where
  SolarStnId : String
  SiteClass : String
  SolarFlag : Bool
  StationName : String
  State : String
  Latitude : Option ℚ
  Longitude : Option ℚ
  Elevation_m : Option ℚ
  TimeZoneOffset : Option ℚ
deriving DecidableEq, Repr

/-- The per-row boolean index built up by `NSRBUtilities.find_stations`:
start from `True`, `&`-in the `State` match and `StationName` containment
when those arguments are non-empty, and finally, when `solar` is a bool,
apply `idx = idx & dfs['SolarFlag'] == solar`.  Python parses that last
line as `(idx & dfs['SolarFlag']) == solar` because `&` binds tighter than
`==`, and the model reproduces exactly that. -/
def solarRowIdx (station state : String) (solar : Option Bool)
    (s : SolarStation) : Bool :=
  let idx := true
  let idx := if state.length > 0 then idx && strMatchCI s.State state else idx
  let idx := if station.length > 0 then idx && strContainsCI s.StationName station else idx
  match solar with
  | some b => (idx && s.SolarFlag) == b
  | none => idx

/-- `NSRBUtilities.find_stations(station, state, solar)`: validates `state`
exactly as the weather catalog does, then filters by the accumulated
boolean index `solarRowIdx`.  `solar` is `some b` when a boolean was
passed and `none` for any non-boolean argument (the default is `''`). -/
def find_stations_solar (dfStations : List SolarStation)
    (station state : String) (solar : Option Bool) :
    Except String (List SolarStation) :=
  if stateArgBad state then
    Except.error "state must be a string two letters"
  else
    Except.ok (dfStations.filter fun s => solarRowIdx station state solar s)

/-- `NSRBUtilities.get_station_info(stationid)`: identical contract to the
weather catalog's lookup. -/
def get_station_info_solar (dfStations : List SolarStation)
    (stationid : String) : Option SolarStation :=
  dfStations.find? fun s => s.SolarStnId = stationid

/-! ## Solar yearly observations (`NSRBUtilities.read_solar_byyear`) -/

/-- One row of the 21-column year CSV member inside a station archive,
after the date parsing done by `read_solar_byyear` (`Time_LST` stays an
unparsed string; float columns are `Option ℚ` with `none` for the `-9900`
missing-value sentinel). -/
structure SolarCsvRow where
  Date : Date
  Time_LST : String
  Zenith_deg : Option ℚ
  Azimuth_deg : Option ℚ
  ETR_Wpm2 : Option ℚ
  ETRN_Wpm2 : Option ℚ
  GloMod_Wpm2 : Option ℚ
  GloModUnc_pct : Option ℚ
  GloModSrc : Option ℚ
  DirMod_Wpm2 : Option ℚ
  DirModUnc_pct : Option ℚ
  DirModSrc : Option ℚ
  DifMod_Wpm2 : Option ℚ
  DifModUnc_pct : Option ℚ
  DifModSrc : Option ℚ
  MeasGlo_Wpm2 : Option ℚ
  MeasGloQualFlg : Int
  MeasDir_Wpm2 : Option ℚ
  MeasDirQualFlg : Int
  MeasDif_Wpm2 : Option ℚ
  MeasDifQualFlg : Int
deriving DecidableEq, Repr

/-- An output row of `read_solar_byyear`: the CSV columns plus the inserted
`SolarStnId` column and the derived `Year`, `Month`, `Day` columns. -/
structure SolarObsRow extends SolarCsvRow where
  SolarStnId : String
  Year : Int
  Month : Nat
  Day : Nat
deriving DecidableEq, Repr

/-- A station `tar.gz` archive: a partial map from member names to the
parsed CSV content of that member (`tarfile.extractfile` raises on a
missing member, which the source catches). -/
structure SolarArchive where
  members : String → Option (List SolarCsvRow)

/-- The solar directory contents relevant to `read_solar_byyear`:
`archives sid` is the archive `<sid>.tar.gz` when that file exists. -/
structure SolarFS where
  archives : String → Option SolarArchive

/-- The member path `'nsrdb_solar/{}/{}_{}.csv'.format(stationid, stationid, year)`. -/
def solarMemberPath (stationid : String) (year : Int) : String :=
  "nsrdb_solar/" ++ stationid ++ "/" ++ stationid ++ "_" ++ toString year ++ ".csv"

/-- `NSRBUtilities.read_solar_byyear(stationid, year)`: raise when the
per-station archive file is missing; return an empty dataframe when the
year member is absent from a present archive; otherwise parse the member,
insert the station id column and add the derived date columns.  (The
`isinstance(stationid, str)` check is vacuous in this typed model.) -/
def read_solar_byyear (fs : SolarFS) (stationid : String) (year : Int) :
    Except String (List SolarObsRow) :=
  match fs.archives stationid with
  | none => Except.error ("File not found: " ++ stationid ++ ".tar.gz")
  | some ar =>
    match ar.members (solarMemberPath stationid year) with
    | none => Except.ok []
    | some rows =>
      Except.ok (rows.map fun r =>
        { toSolarCsvRow := r, SolarStnId := stationid,
          Year := year, Month := r.Date.month, Day := r.Date.day })

/-! ## Helper lemmas -/

/-- `listIsSubstr` decides contiguous-sublist containment. -/
theorem listIsSubstr_iff (p l : List Char) : listIsSubstr p l = true ↔ p <:+: l := by
  induction l with
  | nil => simp [listIsSubstr, List.isEmpty_iff]
  | cons c t ih =>
    simp [listIsSubstr, ih, List.infix_cons_iff]

/-! ## Claims -/

/-- Concrete weather filesystem with a single 1999 TMAX row. -/
def wfsTmax : WeatherFS :=
  ⟨fun y => if y = 1999 then
      some [⟨"US1", ⟨1999, 3, 14⟩, "TMAX", 256, "", "", ""⟩]
    else none⟩

/-- C1: in `read_weather_byyear`, every parsed row whose element is in
`lstTenths` has its value divided by 10 in the output, every other row's
value passes through unchanged; in particular a `"TMAX"` row of raw value
256 yields 25.6 and a `"WT01"` row is unscaled. -/
theorem weather_tenths_scaling :
    (∀ (fs : WeatherFS) (year : Int) (rows : List WeatherCsvRow),
        fs.byYear year = some rows →
        read_weather_byyear fs year = rows.map fun r =>
          { WeatherStnId := r.WeatherStnId, Date := r.Date, Element := r.Element,
            Value := if r.Element ∈ lstTenths then r.Value / 10 else r.Value,
            MFlag := r.MFlag, QFlag := r.QFlag, SFlag := r.SFlag,
            Year := year, Month := r.Date.month, Day := r.Date.day })
    ∧ (∀ (fs : WeatherFS) (year : Int) (r : WeatherCsvRow),
        fs.byYear year = some [r] → r.Element = "TMAX" → r.Value = 256 →
        (read_weather_byyear fs year).map WeatherObsRow.Value = [25.6])
    ∧ (∀ (fs : WeatherFS) (year : Int) (r : WeatherCsvRow),
        fs.byYear year = some [r] → r.Element = "WT01" →
        (read_weather_byyear fs year).map WeatherObsRow.Value = [r.Value]) := by
  refine ⟨?_, ?_, ?_⟩
  · intro fs year rows h
    simp only [read_weather_byyear, h, applyTenthsScaling, addDateColumns,
      List.map_map]
    apply List.map_congr_left
    intro r _
    by_cases hr : r.Element ∈ lstTenths <;> simp [hr]
  · intro fs year r h hE hV
    norm_num [read_weather_byyear, h, applyTenthsScaling, addDateColumns,
      hE, hV, lstTenths]
  · intro fs year r h hE
    simp [read_weather_byyear, h, applyTenthsScaling, addDateColumns,
      hE, lstTenths]

/-- Closed instance of `weather_tenths_scaling`: the TMAX example. -/
theorem weather_tenths_scaling_witness :
    (read_weather_byyear wfsTmax 1999).map WeatherObsRow.Value = [25.6] :=
  weather_tenths_scaling.2.1 wfsTmax 1999
    ⟨"US1", ⟨1999, 3, 14⟩, "TMAX", 256, "", "", ""⟩ rfl rfl rfl

/-- C6: a year whose `by_year/<year>.csv.gz` file does not exist yields an
empty table from `read_weather_byyear`, not an error. -/
theorem weather_missing_year_empty (fs : WeatherFS) (year : Int)
    (h : fs.byYear year = none) : read_weather_byyear fs year = [] := by
  simp [read_weather_byyear, h]

/-- Concrete weather filesystem with no yearly files at all. -/
def wfsNone : WeatherFS := ⟨fun _ => none⟩

/-- Closed instance of `weather_missing_year_empty` at year 1800. -/
theorem weather_missing_year_empty_witness :
    read_weather_byyear wfsNone 1800 = [] :=
  weather_missing_year_empty wfsNone 1800 rfl

/-- Concrete weather filesystem whose 1999 file contains a row dated in
2000. -/
def wfsYearMismatch : WeatherFS :=
  ⟨fun y => if y = 1999 then
      some [⟨"US1", ⟨2000, 1, 1⟩, "WT01", 5, "", "", ""⟩]
    else none⟩

/-- C4 counterexample: the claim "the derived Year, Month and Day columns
equal the year, month and day components extracted from that row's parsed
Date column" fails, because the `Year` column is the `year` argument, not
the date's year: reading year 1999 over a file containing a row dated
2000-01-01 produces `Year = 1999` while the date's year is 2000. -/
theorem weather_year_not_from_date :
    ¬ ∀ o ∈ read_weather_byyear wfsYearMismatch 1999,
        o.Year = o.Date.year ∧ o.Month = o.Date.month ∧ o.Day = o.Date.day := by
  intro hcl
  have hmem : (⟨"US1", ⟨2000, 1, 1⟩, "WT01", 5, "", "", "", 1999, 1, 1⟩ :
      WeatherObsRow) ∈ read_weather_byyear wfsYearMismatch 1999 := by
    simp [wfsYearMismatch, read_weather_byyear, applyTenthsScaling,
      addDateColumns, lstTenths]
  have h1 := (hcl _ hmem).1
  simp at h1

/-- C4 (amended): for every row of the `read_weather_byyear` output, the
`Month` and `Day` columns equal the month and day of that row's parsed
`Date`, while the `Year` column equals the requested `year` argument
(which coincides with the date's year only when the file's rows are dated
within the requested year). -/
theorem weather_date_columns (fs : WeatherFS) (year : Int) (o : WeatherObsRow)
    (h : o ∈ read_weather_byyear fs year) :
    o.Year = year ∧ o.Month = o.Date.month ∧ o.Day = o.Date.day := by
  unfold read_weather_byyear at h
  cases hb : fs.byYear year with
  | none => rw [hb] at h; simp at h
  | some rows =>
    rw [hb] at h
    simp only [addDateColumns, List.mem_map] at h
    obtain ⟨r, -, rfl⟩ := h
    exact ⟨rfl, rfl, rfl⟩

/-- Closed instance of `weather_date_columns` on the 2000-01-01 row. -/
theorem weather_date_columns_witness :
    (⟨"US1", ⟨2000, 1, 1⟩, "WT01", 5, "", "", "", 1999, 1, 1⟩ :
        WeatherObsRow).Year = 1999 ∧
    (⟨"US1", ⟨2000, 1, 1⟩, "WT01", 5, "", "", "", 1999, 1, 1⟩ :
        WeatherObsRow).Month =
      (⟨"US1", ⟨2000, 1, 1⟩, "WT01", 5, "", "", "", 1999, 1, 1⟩ :
        WeatherObsRow).Date.month ∧
    (⟨"US1", ⟨2000, 1, 1⟩, "WT01", 5, "", "", "", 1999, 1, 1⟩ :
        WeatherObsRow).Day =
      (⟨"US1", ⟨2000, 1, 1⟩, "WT01", 5, "", "", "", 1999, 1, 1⟩ :
        WeatherObsRow).Date.day :=
  weather_date_columns wfsYearMismatch 1999 _ (by
    simp [wfsYearMismatch, read_weather_byyear, applyTenthsScaling,
      addDateColumns, lstTenths])

/-- C5: `read_solar_byyear` raises (returns `Except.error`) exactly when
the per-station archive `<stationId>.tar.gz` is absent; when the archive
is present but its member for the requested year is absent, it returns an
empty table without raising. -/
theorem solar_archive_error_contract (fs : SolarFS) (sid : String) (year : Int) :
    ((∃ msg, read_solar_byyear fs sid year = Except.error msg) ↔
      fs.archives sid = none)
    ∧ (∀ ar, fs.archives sid = some ar →
        ar.members (solarMemberPath sid year) = none →
        read_solar_byyear fs sid year = Except.ok []) := by
  constructor
  · constructor
    · rintro ⟨msg, hmsg⟩
      cases ha : fs.archives sid with
      | none => rfl
      | some ar =>
        simp only [read_solar_byyear, ha] at hmsg
        cases hm : ar.members (solarMemberPath sid year) with
        | none => rw [hm] at hmsg; cases hmsg
        | some rows => rw [hm] at hmsg; cases hmsg
    · intro ha
      refine ⟨"File not found: " ++ sid ++ ".tar.gz", ?_⟩
      simp [read_solar_byyear, ha]
  · intro ar ha hm
    simp [read_solar_byyear, ha, hm]

/-- Concrete solar filesystem: the archive for station `"03927"` exists
but holds no members at all (so no member for any year). -/
def sfsEmptyArchive : SolarFS :=
  ⟨fun sid => if sid = "03927" then some ⟨fun _ => none⟩ else none⟩

/-- Closed instance of `solar_archive_error_contract`: station `"03927"`,
year 1963, present archive with no matching member, empty table result. -/
theorem solar_archive_error_contract_witness :
    read_solar_byyear sfsEmptyArchive "03927" 1963 = Except.ok [] :=
  (solar_archive_error_contract sfsEmptyArchive "03927" 1963).2
    ⟨fun _ => none⟩ rfl rfl

/-- C7: for both catalogs, `get_station_info` on an id present in the
loaded table returns a record of that table whose id field matches the
query; on an absent id it returns the empty result `none`.  The source
wraps the lookup in a bare `try/except` returning an empty Series, so the
call is total and never raises, which the `Option`-valued model reflects. -/
theorem get_station_info_contract :
    (∀ (tbl : List WeatherStation) (sid : String),
      (∀ s, get_station_info_weather tbl sid = some s →
        s ∈ tbl ∧ s.WeatherStnId = sid)
      ∧ ((∃ s ∈ tbl, s.WeatherStnId = sid) →
        ∃ s, get_station_info_weather tbl sid = some s)
      ∧ ((∀ s ∈ tbl, s.WeatherStnId ≠ sid) →
        get_station_info_weather tbl sid = none))
    ∧ (∀ (tbl : List SolarStation) (sid : String),
      (∀ s, get_station_info_solar tbl sid = some s →
        s ∈ tbl ∧ s.SolarStnId = sid)
      ∧ ((∃ s ∈ tbl, s.SolarStnId = sid) →
        ∃ s, get_station_info_solar tbl sid = some s)
      ∧ ((∀ s ∈ tbl, s.SolarStnId ≠ sid) →
        get_station_info_solar tbl sid = none)) := by
  constructor
  · intro tbl sid
    refine ⟨?_, ?_, ?_⟩
    · intro s hs
      refine ⟨List.mem_of_find?_eq_some hs, ?_⟩
      have := List.find?_some hs
      simpa using this
    · intro ⟨s, hmem, hid⟩
      have : (tbl.find? fun s => s.WeatherStnId = sid).isSome := by
        rw [List.find?_isSome]
        exact ⟨s, hmem, by simpa using hid⟩
      obtain ⟨s', hs'⟩ := Option.isSome_iff_exists.mp this
      exact ⟨s', hs'⟩
    · intro hall
      rw [get_station_info_weather, List.find?_eq_none]
      intro s hs
      simpa using hall s hs
  · intro tbl sid
    refine ⟨?_, ?_, ?_⟩
    · intro s hs
      refine ⟨List.mem_of_find?_eq_some hs, ?_⟩
      have := List.find?_some hs
      simpa using this
    · intro ⟨s, hmem, hid⟩
      have : (tbl.find? fun s => s.SolarStnId = sid).isSome := by
        rw [List.find?_isSome]
        exact ⟨s, hmem, by simpa using hid⟩
      obtain ⟨s', hs'⟩ := Option.isSome_iff_exists.mp this
      exact ⟨s', hs'⟩
    · intro hall
      rw [get_station_info_solar, List.find?_eq_none]
      intro s hs
      simpa using hall s hs

/-- A concrete weather station row. -/
def wstnNashville : WeatherStation :=
  ⟨"USW00013897", some 36, some (-86), some 180, "TN", "NASHVILLE INTL AP",
   false, "", none⟩

/-- Closed instance of `get_station_info_contract`: a present id is found. -/
theorem get_station_info_contract_witness :
    ∃ s, get_station_info_weather [wstnNashville] "USW00013897" = some s :=
  (get_station_info_contract.1 [wstnNashville] "USW00013897").2.1
    ⟨wstnNashville, by simp, rfl⟩

/-- C8: for both catalogs, `find_stations` with no filters supplied (all
arguments at their empty defaults) returns the full loaded station table,
so the row count equals the loaded table's size. -/
theorem find_stations_no_filters (wtbl : List WeatherStation)
    (stbl : List SolarStation) :
    find_stations_weather wtbl "" "" = Except.ok wtbl
    ∧ find_stations_solar stbl "" "" none = Except.ok stbl := by
  constructor
  · simp [find_stations_weather, stateArgBad]
  · simp only [find_stations_solar, stateArgBad]
    norm_num
    intro s _
    simp [solarRowIdx]

/-- Modelled after the spec's reference point for C9: "the result of the
same call with only the name and region filters applied" — the solar
station table filtered by the case-insensitive region prefix match and
name containment alone. -/
def nameRegionOnlyFilter (tbl : List SolarStation) (station state : String) :
    List SolarStation :=
  tbl.filter fun s =>
    (state.length = 0 || strMatchCI s.State state) &&
    (station.length = 0 || strContainsCI s.StationName station)

/-- C9: a non-boolean `solar` argument (modelled as `none`, covering the
`''` default) does not raise and imposes no measured-data filter: with a
`state` argument that passes validation, the call returns exactly the
name/region-filtered table. -/
theorem solar_non_bool_measured_no_filter (tbl : List SolarStation)
    (station state : String) (h : stateArgBad state = false) :
    find_stations_solar tbl station state none =
      Except.ok (nameRegionOnlyFilter tbl station state) := by
  simp only [find_stations_solar, h, Bool.false_eq_true, if_false,
    nameRegionOnlyFilter, Except.ok.injEq]
  apply List.filter_congr
  intro s _
  simp only [solarRowIdx]
  rcases Nat.eq_zero_or_pos state.length with h1 | h1 <;>
    rcases Nat.eq_zero_or_pos station.length with h2 | h2
  · simp [h1, h2]
  · simp [h1, h2, Nat.pos_iff_ne_zero.mp h2]
  · simp [h1, h2, Nat.pos_iff_ne_zero.mp h1]
  · simp [h1, h2, Nat.pos_iff_ne_zero.mp h1, Nat.pos_iff_ne_zero.mp h2]

/-- A concrete solar station row: measured-data flag set, name `"Alpha"`,
region `"TN"`. -/
def sstnAlpha : SolarStation :=
  ⟨"A01", "1", true, "Alpha", "TN", none, none, none, none⟩

/-- Closed instance of `solar_non_bool_measured_no_filter` at a concrete
catalog and filters. -/
theorem solar_non_bool_measured_no_filter_witness :
    find_stations_solar [sstnAlpha] "al" "TN" none =
      Except.ok (nameRegionOnlyFilter [sstnAlpha] "al" "TN") :=
  solar_non_bool_measured_no_filter [sstnAlpha] "al" "TN" rfl

/-- C10: for both catalogs, filtering by a pattern that occurs (compared
case-insensitively) as an exact substring of a station's own name, with no
other filter supplied, returns a table that includes that station's row. -/
theorem find_stations_name_roundtrip :
    (∀ (tbl : List WeatherStation), ∀ s ∈ tbl, ∀ pat : String,
        pat.data.map Char.toLower <:+: s.StationName.data.map Char.toLower →
        ∃ res, find_stations_weather tbl pat "" = Except.ok res ∧ s ∈ res)
    ∧ (∀ (tbl : List SolarStation), ∀ s ∈ tbl, ∀ pat : String,
        pat.data.map Char.toLower <:+: s.StationName.data.map Char.toLower →
        ∃ res, find_stations_solar tbl pat "" none = Except.ok res ∧ s ∈ res) := by
  constructor
  · intro tbl s hmem pat hsub
    have hc : strContainsCI s.StationName pat = true :=
      (listIsSubstr_iff _ _).mpr hsub
    rcases Nat.eq_zero_or_pos pat.length with h0 | h0
    · exact ⟨tbl, by simp [find_stations_weather, stateArgBad, h0], hmem⟩
    · refine ⟨tbl.filter fun t => strContainsCI t.StationName pat, ?_, ?_⟩
      · simp [find_stations_weather, stateArgBad, h0]
      · exact List.mem_filter.mpr ⟨hmem, hc⟩
  · intro tbl s hmem pat hsub
    have hc : strContainsCI s.StationName pat = true :=
      (listIsSubstr_iff _ _).mpr hsub
    refine ⟨tbl.filter (solarRowIdx pat "" none), ?_, ?_⟩
    · simp [find_stations_solar, stateArgBad]
    · refine List.mem_filter.mpr ⟨hmem, ?_⟩
      rcases Nat.eq_zero_or_pos pat.length with h0 | h0 <;>
        simp [solarRowIdx, h0, hc]

/-- Closed instance of `find_stations_name_roundtrip`: the pattern
`"VILLE"` is a case-insensitive substring of `"NASHVILLE INTL AP"` and the
Nashville row is returned. -/
theorem find_stations_name_roundtrip_witness :
    ∃ res, find_stations_weather [wstnNashville] "VILLE" "" = Except.ok res
      ∧ wstnNashville ∈ res :=
  find_stations_name_roundtrip.1 [wstnNashville] wstnNashville (by simp)
    "VILLE" (by decide)

/-- C2 at the failing input: the solar filter line
`idx = idx & dfs['SolarFlag'] == solar` parses in Python as
`(idx & dfs['SolarFlag']) == solar` (`&` binds tighter than `==`), so a
call supplying all three filters with `solar=False` returns a station that
fails the name filter and whose measured flag is `True`: the supplied
filters are not combined by logical AND. -/
theorem solar_false_filter_not_and :
    find_stations_solar [sstnAlpha] "zzz" "TN" (some false) =
      Except.ok [sstnAlpha]
    ∧ strContainsCI sstnAlpha.StationName "zzz" = false
    ∧ sstnAlpha.SolarFlag = true :=
  ⟨rfl, by decide, rfl⟩

/-- C3 at the failing input: the character class of the validation regex
`[a-z|A-Z]` literally contains the bar character, so the two-character
argument `"a|"` — which contains the non-letter `'|'` — passes validation
in both catalogs instead of raising; a three-character argument such as
`"xyz"` does raise as the claim states. -/
theorem region_code_pipe_accepted :
    stateArgBad "a|" = false
    ∧ find_stations_weather [] "" "a|" = Except.ok []
    ∧ find_stations_solar [] "" "a|" none = Except.ok []
    ∧ '|'.isAlpha = false
    ∧ stateArgBad "xyz" = true
    ∧ find_stations_weather [] "" "xyz" =
        Except.error "state must be a string two letters"
    ∧ find_stations_solar [] "" "xyz" none =
        Except.error "state must be a string two letters" :=
  ⟨rfl, rfl, rfl, rfl, rfl, rfl, rfl⟩
